import Mathlib

/-!
Verification of the slide-deck generation service core.

Shallow embedding of the structural schema (`Question`, `Slide`,
`Presentation`, `LessonRequest`), the engine construction logic, and the
generation orchestrator (`generate_presentation`, `_plan_agenda`,
`_generate_single_slide`, `stream_presentation`) of the source under
`app/schemas` and `app/services/llm_engine.py`.

Machine strings are modelled as Lean `String`; Python `str.strip` is
modelled over the ASCII whitespace characters, `str.isalpha` and
`str.upper` over ASCII letters (every input appearing in the claims is
ASCII).  Pydantic construction is modelled as an `Option`-returning
constructor: `none` models a raised `ValidationError`.  JSON parsing of
the agenda response is modelled at the level of its result (`PyJson`),
with `Option.none` standing for a `json.JSONDecodeError`.
-/

namespace SlideDeck

/-- ASCII whitespace as recognised by Python `str.strip`. -/
def isPySpace (c : Char) : Bool :=
  c = ' ' || c = '\t' || c = '\n' || c = '\x0d' || c = '\x0b' || c = '\x0c'

/-- Python `str.strip()` (restricted to ASCII whitespace). -/
def pyStrip (s : String) : String :=
  String.mk (((s.data.dropWhile isPySpace).reverse.dropWhile isPySpace).reverse)

/-- Python `str.upper()` (ASCII). -/
def pyUpper (s : String) : String :=
  String.mk (s.data.map Char.toUpper)

/-- The `SlideType` enumeration of `app/schemas/enums.py`. -/
inductive SlideType where
  | title
  | agenda
  | content
  | conclusion
deriving DecidableEq, Repr

/-- Field data of the `Question` model of `app/schemas/question.py`. -/
structure Question where
  prompt : String
  options : List String
  answer : String
deriving DecidableEq, Repr

/-- The declared field constraints of `Question`: `prompt` has at least 10
characters, `options` holds between 2 and 5 entries. -/
def questionFieldsOk (q : Question) : Bool :=
  10 ≤ q.prompt.length && 2 ≤ q.options.length && q.options.length ≤ 5

/-- The first character of a normalised option, as computed by
`validate_answer_in_options` (`opt[0] if opt else ""`). -/
def optionLabel (opt : String) : String :=
  match opt.data with
  | [] => ""
  | c :: _ => String.mk [c]

/-- The model validator `Question.validate_answer_in_options`: the trimmed
answer equals one trimmed option, or is a single alphabetic character whose
upper-case form occurs among the upper-cased option labels. -/
def validate_answer_in_options (q : Question) : Bool :=
  let answer_normalized := pyStrip q.answer
  let options_normalized := q.options.map pyStrip
  if options_normalized.contains answer_normalized then
    true
  else if answer_normalized.length = 1 && answer_normalized.data.all Char.isAlpha then
    let option_labels := options_normalized.map optionLabel
    (option_labels.map pyUpper).contains (pyUpper answer_normalized)
  else
    false

/-- Full construction-time validation of a `Question`. -/
def questionValid (q : Question) : Bool :=
  questionFieldsOk q && validate_answer_in_options q

/-- Pydantic construction of a `Question` (`none` models a raised
`ValidationError`). -/
def mkQuestion (prompt : String) (options : List String) (answer : String) :
    Option Question :=
  let q : Question := ⟨prompt, options, answer⟩
  if questionValid q then some q else none

/-- Field data of the `Slide` model of `app/schemas/slide.py`. -/
structure Slide where
  type : SlideType
  title : String
  content : String
  image : Option String
  question : Option Question
deriving DecidableEq, Repr

/-- The declared field constraints of `Slide`: `title` has 1–200 characters,
`content` is non-empty, `image` (when present) has 1–200 characters, and a
present `question` must itself be a valid `Question`. -/
def slideFieldsOk (s : Slide) : Bool :=
  1 ≤ s.title.length && s.title.length ≤ 200 &&
  1 ≤ s.content.length &&
  (match s.image with
   | none => true
   | some img => 1 ≤ img.length && img.length ≤ 200) &&
  (match s.question with
   | none => true
   | some q => questionValid q)

/-- The model validator `Slide.validate_slide_structure`: title, agenda and
conclusion slides must not carry a question. -/
def validate_slide_structure (s : Slide) : Bool :=
  match s.type with
  | .content => true
  | _ => s.question.isNone

/-- Full construction-time validation of a `Slide`. -/
def slideValid (s : Slide) : Bool :=
  slideFieldsOk s && validate_slide_structure s

/-- Field data of the `Presentation` model of `app/schemas/presentation.py`. -/
structure Presentation where
  topic : String
  grade : String
  slides : List Slide
deriving DecidableEq, Repr

/-- The Python slice `slides[2:-1]`: everything strictly between the second
slide and the last slide. -/
def middleSlice (slides : List Slide) : List Slide :=
  (slides.drop 2).dropLast

/-- The model validator `Presentation.validate_presentation_structure`,
translated check by check: non-empty, first slide TITLE, second slide AGENDA,
last slide CONCLUSION, `slides[2:-1]` non-empty and all CONTENT, at most one
slide with a question, and the question (if any) on a CONTENT slide. -/
def validate_presentation_structure (slides : List Slide) : Bool :=
  !slides.isEmpty &&
  (slides.head?.map Slide.type == some SlideType.title) &&
  (2 ≤ slides.length && ((slides.get? 1).map Slide.type == some SlideType.agenda)) &&
  (slides.getLast?.map Slide.type == some SlideType.conclusion) &&
  (!(middleSlice slides).isEmpty &&
    (middleSlice slides).all (fun s => s.type == SlideType.content)) &&
  ((slides.filter (fun s => s.question.isSome)).length ≤ 1) &&
  (match slides.filter (fun s => s.question.isSome) with
   | [] => true
   | q :: _ => q.type == SlideType.content)

/-- Pydantic construction of a `Presentation`: each nested slide is
validated, the `slides` field must have at least 3 entries (`min_length=3`),
and the structural model validator must pass. -/
def mkPresentation (topic grade : String) (slides : List Slide) :
    Option Presentation :=
  if slides.all slideValid && 3 ≤ slides.length &&
      validate_presentation_structure slides then
    some ⟨topic, grade, slides⟩
  else
    none

/-- Field data of the `LessonRequest` model of `app/schemas/request.py`. -/
structure LessonRequest where
  topic : String
  grade : String
  context : String
  n_slides : Int
deriving DecidableEq, Repr

/-- Pydantic construction of a `LessonRequest`.  Each field first passes its
declared constraints on the raw input (`topic`: 3–100 chars, `grade`: 1–50
chars, `context`: at most 2000 chars, `n_slides`: 1–15), then the field
validators strip whitespace and reject values that are empty after
stripping. -/
def mkLessonRequest (topic grade context : String) (n_slides : Int) :
    Option LessonRequest :=
  if 3 ≤ topic.length && topic.length ≤ 100 &&
      !(pyStrip topic).isEmpty &&
      1 ≤ grade.length && grade.length ≤ 50 &&
      !(pyStrip grade).isEmpty &&
      context.length ≤ 2000 &&
      1 ≤ n_slides && n_slides ≤ 15 then
    some ⟨pyStrip topic, pyStrip grade, pyStrip context, n_slides⟩
  else
    none

/-! ## The LLM engine (`app/services/llm_engine.py`) -/

/-- The configured `settings.DEFAULT_TEMPERATURE` (0.5 in
`app/core/config.py`); the sampling temperature is modelled as a rational. -/
def DEFAULT_TEMPERATURE : ℚ := 1 / 2

/-- The temperature assignment of `LLMEngine.__init__`:
`self.temperature = temperature or settings.DEFAULT_TEMPERATURE`.  Python's
`or` falls through both on `None` and on the falsy float `0.0`. -/
def initTemperature (temperature : Option ℚ) : ℚ :=
  match temperature with
  | none => DEFAULT_TEMPERATURE
  | some t => if t = 0 then DEFAULT_TEMPERATURE else t

/-- Error classification of the engine: the pydantic `ValidationError`
raised by a chain invocation, the engine's own `LLMValidationError` and
`LLMGenerationError`, and any other exception. -/
inductive PyExc where
  | pydanticValidation
  | llmValidation
  | llmGeneration
  | generic
deriving DecidableEq, Repr

/-- Possible successful return values of the structured one-shot chain
invocation: a `Presentation`, or some other object (described by a tag). -/
inductive PyObj where
  | pres (p : Presentation)
  | other (descr : String)
deriving DecidableEq, Repr

/-- The `try` block of `LLMEngine.generate_presentation`, given the outcome
of `chain.ainvoke` (left: raised exception, right: returned object): a
returned non-`Presentation` raises `LLMValidationError`. -/
def generateTryBody (ainvoke : Except PyExc PyObj) : Except PyExc Presentation :=
  match ainvoke with
  | .error e => .error e
  | .ok (.pres p) => .ok p
  | .ok (.other _) => .error .llmValidation

/-- `LLMEngine.generate_presentation`: the `try` body is wrapped by
`except ValidationError` (re-raised as `LLMValidationError`) and then by
`except Exception` (re-raised as `LLMGenerationError`).  The catch-all
applies to every non-pydantic exception escaping the `try` block — including
the `LLMValidationError` raised for a non-`Presentation` result. -/
def generate_presentation (ainvoke : Except PyExc PyObj) :
    Except PyExc Presentation :=
  match generateTryBody ainvoke with
  | .ok p => .ok p
  | .error .pydanticValidation => .error .llmValidation
  | .error _ => .error .llmGeneration

/-- Result of `json.loads` on the agenda-planning response: `jlist` for a
JSON array (of arbitrary element values), the other constructors for
non-array JSON values. -/
inductive PyJson where
  | jstr (s : String)
  | jnum (n : Int)
  | jlist (xs : List PyJson)
  | jother

/-- The decision logic of `LLMEngine._plan_agenda` after the response body
has been cleaned and handed to `json.loads` (`none` models a
`json.JSONDecodeError`): a parsed JSON array is truncated to the first
`n_slides` entries; any parse failure or non-array value falls back to
`["Topic 1", ..., "Topic n_slides"]`. -/
def plan_agenda (n_slides : Nat) (parsed : Option PyJson) : List PyJson :=
  match parsed with
  | some (.jlist subtopics) => subtopics.take n_slides
  | _ => (List.range n_slides).map (fun i => .jstr ("Topic " ++ toString (i + 1)))

/-- The tail of `LLMEngine._generate_single_slide`: when the inference
result's `type` differs from the requested one, a new `Slide` is
reconstructed with the forced `type` and otherwise identical fields —
re-running the `Slide` validation (`none` models the raised
`ValidationError`); a matching result is returned unchanged. -/
def ensureSlideType (slide_type : SlideType) (result : Slide) : Option Slide :=
  if result.type = slide_type then
    some result
  else
    let rebuilt : Slide :=
      ⟨slide_type, result.title, result.content, result.image, result.question⟩
    if slideValid rebuilt then some rebuilt else none

/-- Inference results consumed by one streaming run in which every inference
call succeeds with a `Slide` (resp. a response body for agenda planning):
the content-slide function receives the 0-based index, the subtopic, the
`include_image` flag and the `include_question` flag passed by the
orchestrator. -/
structure StreamOracle where
  agendaParsed : Option PyJson
  titleSlide : Slide
  agendaSlide : Slide
  contentSlide : Nat → PyJson → Bool → Bool → Slide
  conclusionSlide : Slide

/-- The per-content-slide call parameters computed by
`LLMEngine.stream_presentation`: for each planned subtopic at index `i`,
`include_image := (i % 2 == 0)` and
`include_question := (i == n_slides // 2)`. -/
def contentCalls (n_slides : Nat) (subtopics : List PyJson) :
    List (Nat × PyJson × Bool × Bool) :=
  subtopics.enum.map
    (fun p => (p.1, p.2, decide (p.1 % 2 = 0), decide (p.1 = n_slides / 2)))

/-- `LLMEngine.stream_presentation` on a run in which every inference call
succeeds: plan the agenda, yield the title slide, the agenda slide, one
content slide per planned subtopic (with the orchestrator's image/question
flags), then the conclusion slide.  Each yielded slide passes through the
type-forcing step of `_generate_single_slide`; `none` models a raised
exception. -/
def stream_presentation (n_slides : Nat) (o : StreamOracle) :
    Option (List Slide) := do
  let subtopics := plan_agenda n_slides o.agendaParsed
  let t ← ensureSlideType .title o.titleSlide
  let a ← ensureSlideType .agenda o.agendaSlide
  let cs ← (contentCalls n_slides subtopics).mapM
    (fun c => ensureSlideType .content (o.contentSlide c.1 c.2.1 c.2.2.1 c.2.2.2))
  let concl ← ensureSlideType .conclusion o.conclusionSlide
  return t :: a :: (cs ++ [concl])

/-! ## Concrete fixtures used to evaluate the embedded code -/

/-- A minimal valid TITLE slide. -/
def titleFixture : Slide := ⟨.title, "Deck title", "Intro", none, none⟩

/-- A minimal valid AGENDA slide. -/
def agendaFixture : Slide := ⟨.agenda, "Agenda", "Overview", none, none⟩

/-- A minimal valid CONTENT slide. -/
def contentFixture : Slide := ⟨.content, "Body title", "Body", none, none⟩

/-- A minimal valid CONCLUSION slide. -/
def conclusionFixture : Slide := ⟨.conclusion, "Wrap-up", "Summary", none, none⟩

/-- A well-formed 4-slide deck. -/
def goodSlides : List Slide :=
  [titleFixture, agendaFixture, contentFixture, conclusionFixture]

/-- A streaming run for `n_slides = 2` in which every inference call
succeeds but the agenda-planning response parses to the one-element list
`["A"]`. -/
def shortAgendaOracle : StreamOracle :=
  ⟨some (.jlist [.jstr "A"]), titleFixture, agendaFixture,
    fun _ _ _ _ => contentFixture, conclusionFixture⟩

/-- A TITLE-typed inference result used to exercise the type-forcing step. -/
def wrongTypeFixture : Slide := ⟨.title, "Forced", "Body", none, none⟩

/-- The acceptance condition on a `Question`'s answer in the words of the
spec sentence behind claim C6: the trimmed answer equals one trimmed option
exactly, or is a single alphabetic character that case-insensitively equals
the first character of exactly one trimmed option. -/
def answerAcceptedSpecExactlyOne (options : List String) (answer : String) : Bool :=
  let a := pyStrip answer
  let opts := options.map pyStrip
  opts.contains a ||
  (a.length = 1 && a.data.all Char.isAlpha &&
    (opts.countP (fun o => pyUpper (optionLabel o) == pyUpper a)) = 1)

/-! ## Theorems -/

/-- Claim C10: constructing an `LLMEngine` with an explicit temperature of `0.0`
does not use that value — the falsy-`or` fallback replaces it (and a missing
temperature) with `settings.DEFAULT_TEMPERATURE`, while any non-zero
temperature is kept as given. -/
theorem temperature_zero_falls_back_to_default :
    initTemperature (some 0) = DEFAULT_TEMPERATURE ∧
    initTemperature none = DEFAULT_TEMPERATURE ∧
    ∀ t : ℚ, t ≠ 0 → initTemperature (some t) = t := by
  refine ⟨rfl, rfl, fun t ht => ?_⟩
  simp [initTemperature, ht]

/-- Witness for C10's theorem at the non-zero temperature `7/10`. -/
theorem temperature_zero_falls_back_to_default_witness :
    initTemperature (some (7 / 10)) = 7 / 10 :=
  temperature_zero_falls_back_to_default.2.2 (7 / 10) (by norm_num)

/-- Claim C1, counterexample: when the one-shot chain invocation returns an object
that is not structurally a `Presentation`, `generate_presentation` raises
`LLMGenerationError`, not `LLMValidationError` as the claim states. -/
theorem wrong_type_result_counterexample :
    generate_presentation (.ok (.other "dict")) = .error .llmGeneration ∧
    generate_presentation (.ok (.other "dict")) ≠ .error .llmValidation := by
  refine ⟨rfl, ?_⟩
  intro h
  simp only [generate_presentation, generateTryBody] at h
  exact absurd (Except.error.inj h) (by decide)

/-- Claim C1 as amended: for every one-shot invocation returning a
non-`Presentation` object, `generate_presentation` fails with
`LLMGenerationError` (the internally raised `LLMValidationError` is caught
by the catch-all handler and re-wrapped); `LLMValidationError` surfaces when
the invocation itself raises a pydantic `ValidationError`. -/
theorem wrong_type_result_is_generation_error :
    (∀ descr, generate_presentation (.ok (.other descr)) = .error .llmGeneration) ∧
    generate_presentation (.error .pydanticValidation) = .error .llmValidation ∧
    ∀ p, generate_presentation (.ok (.pres p)) = .ok p := by
  exact ⟨fun _ => rfl, rfl, fun _ => rfl⟩

/-- Claim C3, code evaluated at the failing input: evaluation of `_plan_agenda`'s decision logic at the failing input —
a response body parsing to the one-element list `["Only one"]` with
`n_slides = 3` is returned as-is (1 entry, not 3), while an unparseable
response does produce the 3-entry deterministic fallback. -/
theorem plan_agenda_short_list_eval :
    plan_agenda 3 (some (.jlist [.jstr "Only one"])) = [.jstr "Only one"] ∧
    (plan_agenda 3 (some (.jlist [.jstr "Only one"]))).length = 1 ∧
    plan_agenda 3 none = [.jstr "Topic 1", .jstr "Topic 2", .jstr "Topic 3"] := by
  exact ⟨rfl, rfl, rfl⟩

/-- Claim C2, code evaluated at the failing input: evaluation of the streaming orchestrator at the failing input —
with `n_slides = 2`, an agenda response parsing to the one-element list
`["A"]`, and every slide inference succeeding, the stream yields 4 slides
(TITLE, AGENDA, one CONTENT, CONCLUSION), not `2 + 3 = 5`. -/
theorem stream_short_agenda_eval :
    stream_presentation 2 shortAgendaOracle =
      some [titleFixture, agendaFixture, contentFixture, conclusionFixture] ∧
    (stream_presentation 2 shortAgendaOracle).map List.length = some 4 ∧
    (4 : Nat) ≠ 2 + 3 := by
  refine ⟨by decide, by decide, by decide⟩

/-- Claim C5, code evaluated at the failing input: evaluation of the content-call flags at the failing input — with
`n_slides = 5` and an agenda response parsing to `["a", "b"]`, the generated
content calls carry the flags `(i % 2 == 0, i == 5 / 2)` for `i ∈ {0, 1}`,
so no generated content slide is question-eligible (the claim says exactly
one is). -/
theorem stream_flags_no_question_eval :
    contentCalls 5 (plan_agenda 5 (some (.jlist [.jstr "a", .jstr "b"]))) =
      [(0, .jstr "a", true, false), (1, .jstr "b", false, false)] ∧
    ((contentCalls 5 (plan_agenda 5 (some (.jlist [.jstr "a", .jstr "b"])))).filter
      (fun c => c.2.2.2)).length = 0 ∧
    (0 : Nat) ≠ 1 := by
  refine ⟨rfl, by decide, by decide⟩

/-- Claim C4, counterexample: the raw topic `"a  "` has 3 characters, so it
passes the declared `min_length=3` before the field validator trims it to the
1-character `"a"`; the request is constructed with a topic of fewer than 3
post-trim characters, contradicting the claim. -/
theorem request_posttrim_bounds_counterexample :
    mkLessonRequest "a  " "5" "" 1 = some ⟨"a", "5", "", 1⟩ ∧
    ¬ 3 ≤ (pyStrip "a  ").length := by
  exact ⟨by decide, by decide⟩

/-- Claim C4 as amended: the 3–100 (topic) and 1–50 (grade) length bounds
apply to the raw input before trimming; construction succeeds exactly when
the raw bounds hold, the trimmed topic and grade are non-empty, and the
remaining fields are in range, and the constructed topic and grade equal the
trimmed inputs. -/
theorem request_bounds_apply_to_raw_input
    (topic grade context : String) (n : Int) :
    ((mkLessonRequest topic grade context n).isSome = true ↔
      (3 ≤ topic.length ∧ topic.length ≤ 100 ∧ (pyStrip topic).isEmpty = false ∧
       1 ≤ grade.length ∧ grade.length ≤ 50 ∧ (pyStrip grade).isEmpty = false ∧
       context.length ≤ 2000 ∧ 1 ≤ n ∧ n ≤ 15)) ∧
    ∀ r, mkLessonRequest topic grade context n = some r →
      r.topic = pyStrip topic ∧ r.grade = pyStrip grade := by
  constructor
  · simp only [mkLessonRequest]
    split
    · rename_i h
      simp only [Option.isSome_some, true_iff]
      simp only [Bool.and_eq_true, decide_eq_true_eq, Bool.not_eq_true'] at h
      tauto
    · rename_i h
      simp only [Option.isSome_none, Bool.false_eq_true, false_iff]
      simp only [Bool.and_eq_true, decide_eq_true_eq, Bool.not_eq_true'] at h
      tauto
  · intro r hr
    simp only [mkLessonRequest] at hr
    split at hr
    · cases hr
      exact ⟨rfl, rfl⟩
    · cases hr

/-- Witness for the amended C4 theorem at the concrete input
`(" Algebra ", "7th", "", 5)`. -/
theorem request_bounds_witness :
    (⟨"Algebra", "7th", "", 5⟩ : LessonRequest).topic = pyStrip " Algebra " ∧
    (⟨"Algebra", "7th", "", 5⟩ : LessonRequest).grade = pyStrip "7th" :=
  (request_bounds_apply_to_raw_input " Algebra " "7th" "" 5).2
    ⟨"Algebra", "7th", "", 5⟩ (by decide)

/-- Characterisation of `Question.validate_answer_in_options`: the check
passes exactly when the trimmed answer equals one trimmed option, or is a
single alphabetic character whose upper-case form equals the upper-cased
first character of at least one trimmed option. -/
theorem validate_answer_iff (q : Question) :
    validate_answer_in_options q = true ↔
      (pyStrip q.answer ∈ q.options.map pyStrip ∨
       ((pyStrip q.answer).length = 1 ∧
        (∀ c ∈ (pyStrip q.answer).data, c.isAlpha = true) ∧
        ∃ o ∈ q.options.map pyStrip,
          pyUpper (optionLabel o) = pyUpper (pyStrip q.answer))) := by
  simp only [validate_answer_in_options]
  split
  · rename_i h1
    simp only [true_iff]
    exact Or.inl (by simpa using h1)
  · rename_i h1
    split
    · rename_i h2
      simp only [Bool.and_eq_true, decide_eq_true_eq, List.all_eq_true] at h2
      constructor
      · intro h3
        refine Or.inr ⟨h2.1, h2.2, ?_⟩
        simpa using h3
      · rintro (hmem | ⟨-, -, o, ho, heq⟩)
        · exact absurd (by simpa using hmem) (by simpa using h1)
        · have hm : pyUpper (pyStrip q.answer) ∈
              ((q.options.map pyStrip).map optionLabel).map pyUpper := by
            simp only [List.map_map, List.mem_map, Function.comp]
            obtain ⟨o', ho', rfl⟩ := List.mem_map.1 ho
            exact ⟨o', ho', heq⟩
          simpa using hm
    · rename_i h2
      simp only [Bool.false_eq_true, false_iff]
      rintro (hmem | ⟨hl, ha, -⟩)
      · exact h1 (by simpa using hmem)
      · refine h2 ?_
        simp only [Bool.and_eq_true, decide_eq_true_eq, List.all_eq_true]
        exact ⟨hl, ha⟩

/-- Claim C6, counterexample: with options `["Apple", "Avocado"]` the answer
`"a"` case-insensitively matches the first character of two options, not of
exactly one; the claim demands failure, yet the `Question` is constructed
(the code only tests membership among the option labels). -/
theorem question_label_ambiguity_counterexample :
    (mkQuestion "Which option starts with the letter A?" ["Apple", "Avocado"] "a").isSome
      = true ∧
    answerAcceptedSpecExactlyOne ["Apple", "Avocado"] "a" = false := by
  exact ⟨by decide, by decide⟩

/-- Claim C6 as amended: with the field bounds satisfied, a `Question` is
successfully constructed if and only if its trimmed answer exactly equals one
trimmed option, or is a single alphabetic character that case-insensitively
equals the first character of at least one trimmed option. -/
theorem question_accepted_iff_label_match
    (prompt : String) (options : List String) (answer : String)
    (hp : 10 ≤ prompt.length) (h2 : 2 ≤ options.length) (h5 : options.length ≤ 5) :
    (mkQuestion prompt options answer).isSome = true ↔
      (pyStrip answer ∈ options.map pyStrip ∨
       ((pyStrip answer).length = 1 ∧
        (∀ c ∈ (pyStrip answer).data, c.isAlpha = true) ∧
        ∃ o ∈ options.map pyStrip,
          pyUpper (optionLabel o) = pyUpper (pyStrip answer))) := by
  have hf : questionFieldsOk ⟨prompt, options, answer⟩ = true := by
    simp [questionFieldsOk, hp, h2, h5]
  rw [← validate_answer_iff ⟨prompt, options, answer⟩]
  simp only [mkQuestion, questionValid, hf, Bool.true_and]
  split
  · rename_i hv
    simp [hv]
  · rename_i hv
    simp [hv]

/-- Witness for the amended C6 theorem: the label answer `"B"` against the
options `["A) 3", "B) 4"]` is accepted. -/
theorem question_accepted_witness :
    (mkQuestion "What is 2+2?" ["A) 3", "B) 4"] "B").isSome = true :=
  (question_accepted_iff_label_match "What is 2+2?" ["A) 3", "B) 4"] "B"
    (by decide) (by decide) (by decide)).mpr (by decide)

/-- A successful `Presentation` construction passes the structural model
validator. -/
theorem mkPresentation_structure {topic grade : String} {slides : List Slide}
    {p : Presentation} (h : mkPresentation topic grade slides = some p) :
    validate_presentation_structure slides = true := by
  simp only [mkPresentation] at h
  split at h
  · rename_i hc
    simp only [Bool.and_eq_true] at hc
    exact hc.2
  · cases h

/-- Claim C7: every successfully constructed `Presentation` has a TITLE
first slide, an AGENDA second slide, a CONCLUSION last slide, a non-empty
all-CONTENT middle slice `slides[2:-1]`, at most one slide carrying a
question, and any question-carrying slide is a CONTENT slide; construction
fails whenever any of these is violated. -/
theorem presentation_invariants (topic grade : String) (slides : List Slide)
    (p : Presentation) (h : mkPresentation topic grade slides = some p) :
    slides.head?.map Slide.type = some SlideType.title ∧
    (slides.get? 1).map Slide.type = some SlideType.agenda ∧
    slides.getLast?.map Slide.type = some SlideType.conclusion ∧
    middleSlice slides ≠ [] ∧
    (∀ s ∈ middleSlice slides, s.type = SlideType.content) ∧
    (slides.filter (fun s => s.question.isSome)).length ≤ 1 ∧
    (∀ s ∈ slides, s.question.isSome = true → s.type = SlideType.content) := by
  have hv := mkPresentation_structure h
  simp only [validate_presentation_structure, Bool.and_eq_true, beq_iff_eq,
    decide_eq_true_eq, Bool.not_eq_true', List.all_eq_true, List.isEmpty_eq_false] at hv
  obtain ⟨⟨⟨⟨⟨⟨h0, h1⟩, h2⟩, h3⟩, h4, h5⟩, h6⟩, h7⟩ := hv
  refine ⟨h1, h2.2, h3, ?_, ?_, h6, ?_⟩
  · simpa [List.isEmpty_iff] using h4
  · intro s hs
    exact h5 s hs
  · intro s hs hq
    have hmem : s ∈ slides.filter (fun s => s.question.isSome) :=
      List.mem_filter.2 ⟨hs, hq⟩
    rcases hf : slides.filter (fun s => s.question.isSome) with _ | ⟨q, rest⟩
    · rw [hf] at hmem; cases hmem
    · rw [hf] at hmem h6 h7
      have hrest : rest = [] := by
        simp only [List.length_cons] at h6
        exact List.eq_nil_of_length_eq_zero (by omega)
      subst hrest
      have hsq : s = q := by simpa using hmem
      subst hsq
      exact eq_of_beq h7

/-- Witness for C7's theorem at the concrete 4-slide deck. -/
theorem presentation_invariants_witness :
    goodSlides.getLast?.map Slide.type = some SlideType.conclusion :=
  (presentation_invariants "Photosynthesis" "7th grade" goodSlides
    ⟨"Photosynthesis", "7th grade", goodSlides⟩ (by decide)).2.2.1

/-- Claim C9: although the `slides` field only carries `min_length=3`, the
structural validator additionally demands a non-empty `slides[2:-1]`, so
every successfully constructed `Presentation` has at least 4 slides (and in
particular none with exactly 3 exists). -/
theorem presentation_has_at_least_four_slides (topic grade : String)
    (slides : List Slide) (p : Presentation)
    (h : mkPresentation topic grade slides = some p) :
    4 ≤ slides.length := by
  have hv := mkPresentation_structure h
  simp only [validate_presentation_structure, Bool.and_eq_true, Bool.not_eq_true',
    List.isEmpty_eq_false] at hv
  have h4 : middleSlice slides ≠ [] := hv.1.1.2.1
  have hlen : (middleSlice slides).length = slides.length - 2 - 1 := by
    simp [middleSlice]
  have hpos : 0 < (middleSlice slides).length := List.length_pos.2 h4
  omega

/-- Witness for C9's theorem at the concrete 4-slide deck. -/
theorem presentation_min_four_witness : 4 ≤ goodSlides.length :=
  presentation_has_at_least_four_slides "Photosynthesis" "7th grade" goodSlides
    ⟨"Photosynthesis", "7th grade", goodSlides⟩ (by decide)

/-- Claim C8: when generating a content slide, a valid inference result
whose `type` already is CONTENT is passed through unchanged, and one with
any other `type` is rebuilt with `type` forced to CONTENT and identical
title, content, image and question fields. -/
theorem content_type_forcing (s : Slide) (h : slideValid s = true) :
    (s.type = SlideType.content → ensureSlideType SlideType.content s = some s) ∧
    (s.type ≠ SlideType.content →
      ensureSlideType SlideType.content s =
        some ⟨SlideType.content, s.title, s.content, s.image, s.question⟩) := by
  constructor
  · intro ht
    simp [ensureSlideType, ht]
  · intro ht
    have hvalid :
        slideValid ⟨SlideType.content, s.title, s.content, s.image, s.question⟩ = true := by
      simp only [slideValid, Bool.and_eq_true] at h ⊢
      exact ⟨h.1, rfl⟩
    simp [ensureSlideType, ht, hvalid]

/-- Witness for C8's theorem: a TITLE-typed inference result is rebuilt as a
CONTENT slide with unchanged fields. -/
theorem content_type_forcing_witness :
    ensureSlideType SlideType.content wrongTypeFixture =
      some ⟨SlideType.content, "Forced", "Body", none, none⟩ :=
  (content_type_forcing wrongTypeFixture (by decide)).2 (by decide)

end SlideDeck
